import Mathlib

/-!
Shallow embedding of the select-widget state machine from
`src/vscode-select/includes/vscode-select-base.ts` (class `VscodeSelectBase`).

State fields mirror the class fields; each `_on…` handler is translated into a
pure function on `SelectState`.  DOM event dispatch (`vsc-change`) is modelled
by returning the list of dispatched `ChangeDetail` payloads; the window-level
outside-click listener is modelled by the boolean `listenerAttached`
(DOM `addEventListener`/`removeEventListener` with a fixed bound callback are
idempotent, so a boolean is the exact semantics).  JavaScript property access
on `undefined` (out-of-range array indexing followed by a member access) is a
thrown `TypeError`; handlers that can reach such an access return `Option`,
with `none` for the throw.
-/

namespace VscodeSelect

/-- One option record, as in `InternalOption` of `types.ts`: the slotted
option data plus the stable zero-based index assigned at ingestion. -/
structure InternalOption where
  label : String
  value : String
  description : String
  selected : Bool
  index : Nat
deriving Repr, DecidableEq

instance : Inhabited InternalOption := ⟨⟨"", "", "", false, 0⟩⟩

/-- The search-method union type of `types.ts`. -/
inductive SearchMethod where
  | contains
  | fuzzy
  | startsWith
  | startsWithPerTerm
deriving Repr, DecidableEq

/-- Payload of a dispatched `vsc-change` event (`_dispatchChangeEvent`). -/
inductive ChangeDetail where
  | single (selectedIndex : Int) (value : String)
  | multi (selectedIndexes : List Nat) (value : List String)
deriving Repr, DecidableEq

/-- The mutable fields of `VscodeSelectBase` that the handlers touch. -/
structure SelectState where
  ariaExpanded : String
  activeIndex : Int
  selectedIndex : Int
  selectedIndexes : List Nat
  showDropdown : Bool
  options : List InternalOption
  value : String
  values : List String
  multiple : Bool
  filter : SearchMethod
  listenerAttached : Bool
deriving Repr, DecidableEq

/-- JavaScript array indexing `arr[i]` with a possibly negative index:
`undefined` (here `none`) when out of range. -/
def getI? {α : Type*} (l : List α) (i : Int) : Option α :=
  if 0 ≤ i then l[i.toNat]? else none

/-- The class field initializers of `VscodeSelectBase`. -/
def initialState (opts : List InternalOption) (multiple : Bool) : SelectState :=
  { ariaExpanded := "false"
    activeIndex := -1
    selectedIndex := -1
    selectedIndexes := []
    showDropdown := false
    options := opts
    value := ""
    values := []
    multiple := multiple
    filter := .fuzzy
    listenerAttached := false }

/-- `_toggleDropdown(visible)`: sets visibility and aria attribute, seeds the
active index from the selection in single mode when opening, and attaches or
detaches the window click listener. -/
def _toggleDropdown (visible : Bool) (s : SelectState) : SelectState :=
  let s1 := { s with showDropdown := visible, ariaExpanded := if visible then "true" else "false" }
  let s2 := if visible && !s1.multiple then { s1 with activeIndex := s1.selectedIndex } else s1
  if visible then { s2 with listenerAttached := true } else { s2 with listenerAttached := false }

/-- `_dispatchChangeEvent()`: builds the `vsc-change` payload from the current
state, single or multi shape. -/
def _dispatchChangeEvent (s : SelectState) : ChangeDetail :=
  if !s.multiple then .single s.selectedIndex s.value
  else .multi s.selectedIndexes s.values

/-- `_onFaceClick()`: toggle the dropdown; in multi mode reset the active
index to -1. -/
def _onFaceClick (s : SelectState) : SelectState :=
  let s1 := _toggleDropdown (!s.showDropdown) s
  if s1.multiple then { s1 with activeIndex := -1 } else s1

/-- `_onClickOutside(event)`: `selfInPath` is whether the composed event path
contains the widget; when it does not, close the dropdown and remove the
listener (a second, idempotent removal after the one in `_toggleDropdown`). -/
def _onClickOutside (selfInPath : Bool) (s : SelectState) : SelectState :=
  if !selfInPath then
    let s1 := _toggleDropdown false s
    { s1 with listenerAttached := false }
  else s

/-- `_onEnterKeyDown()`: toggle the dropdown; on a single-mode close with a
moved active index, commit the selection and dispatch `vsc-change`; on a
multi-mode open, set the active index to 0.  `none` models the `TypeError`
thrown by `this._options[this._selectedIndex].value` when the new selected
index is out of range. -/
def _onEnterKeyDown (s : SelectState) : Option (SelectState × List ChangeDetail) :=
  let visible := !s.showDropdown
  let s1 := _toggleDropdown visible s
  if !s1.multiple && !visible && decide (s1.selectedIndex ≠ s1.activeIndex) then
    match getI? s1.options s1.activeIndex with
    | none => none
    | some opt =>
      let s2 := { s1 with selectedIndex := s1.activeIndex, value := opt.value }
      let s3 := if s2.multiple && visible then { s2 with activeIndex := 0 } else s2
      some (s3, [_dispatchChangeEvent s2])
  else
    let s3 := if s1.multiple && visible then { s1 with activeIndex := 0 } else s1
    some (s3, [])

/-- `_onSpaceKeyDown()`: open when closed; when open in multi mode with an
active index above -1, flip the `selected` flag of the active option and
recompute `selectedIndexes` by scanning the option list.  `none` models the
`TypeError` on an out-of-range active index. -/
def _onSpaceKeyDown (s : SelectState) : Option SelectState :=
  if !s.showDropdown then
    some (_toggleDropdown true s)
  else if s.showDropdown && s.multiple && decide (s.activeIndex > -1) then
    match getI? s.options s.activeIndex with
    | none => none
    | some opt =>
      let newOptions := s.options.set s.activeIndex.toNat { opt with selected := !opt.selected }
      some { s with
        options := newOptions
        selectedIndexes := (newOptions.filter (·.selected)).map (·.index) }
  else
    some s

/-- `_onArrowUpKeyDown()`: while open, decrement the active index unless it is
at or below 0. -/
def _onArrowUpKeyDown (s : SelectState) : SelectState :=
  if s.showDropdown then
    if s.activeIndex ≤ 0 then s else { s with activeIndex := s.activeIndex - 1 }
  else s

/-- `_onArrowDownKeyDown()`: while open, increment the active index unless it
is at or beyond `length - 1`. -/
def _onArrowDownKeyDown (s : SelectState) : SelectState :=
  if s.showDropdown then
    if s.activeIndex ≥ (s.options.length : Int) - 1 then s
    else { s with activeIndex := s.activeIndex + 1 }
  else s

/-- Result of the component-level keydown handler: the new state, the
dispatched `vsc-change` payloads, and whether `stopPropagation` and
`preventDefault` were called on the event. -/
structure KeyDownResult where
  state : SelectState
  events : List ChangeDetail
  stopPropagationCalled : Bool
  preventDefaultCalled : Bool
deriving Repr, DecidableEq

/-- `_onComponentKeyDown(event)`: stops propagation and prevents default for
the keys in `[' ', 'ArrowUp', 'ArrowDown', 'Escape']`, then routes to the
per-key handler; `Escape` sets `_showDropdown` directly. -/
def _onComponentKeyDown (key : String) (s : SelectState) : Option KeyDownResult :=
  let sp := [" ", "ArrowUp", "ArrowDown", "Escape"].contains key
  if key = "Enter" then
    (_onEnterKeyDown s).map (fun p => ⟨p.1, p.2, sp, sp⟩)
  else if key = " " then
    (_onSpaceKeyDown s).map (fun s1 => ⟨s1, [], sp, sp⟩)
  else if key = "Escape" then
    some ⟨{ s with showDropdown := false }, [], sp, sp⟩
  else if key = "ArrowUp" then
    some ⟨_onArrowUpKeyDown s, [], sp, sp⟩
  else if key = "ArrowDown" then
    some ⟨_onArrowDownKeyDown s, [], sp, sp⟩
  else
    some ⟨s, [], sp, sp⟩

/-- A slotted child node as `_addOptionsFromSlottedElements` sees it: either a
`vscode-option` element (with its text, optional `value` attribute,
description and selected flag) or any other node, which is skipped. -/
inductive SlottedNode where
  | optionEl (innerText : String) (valueAttr : Option String) (description : String)
      (selected : Bool)
  | other
deriving Repr, DecidableEq

/-- Return shape of `_addOptionsFromSlottedElements`. -/
structure OptionListStat where
  selectedIndexes : List Nat
  values : List String
deriving Repr, DecidableEq

/-- The `nodes.forEach` loop of `_addOptionsFromSlottedElements`: builds the
fresh option list (index = position among kept nodes) and collects the
selected indexes and values. -/
def ingestLoop : List SlottedNode → List InternalOption → OptionListStat →
    List InternalOption × OptionListStat
  | [], opts, stat => (opts, stat)
  | .other :: rest, opts, stat => ingestLoop rest opts stat
  | .optionEl txt vAttr desc sel :: rest, opts, stat =>
    let value := vAttr.getD txt
    let op : InternalOption := ⟨txt, value, desc, sel, opts.length⟩
    let opts1 := opts ++ [op]
    let stat1 :=
      if sel then
        ⟨stat.selectedIndexes ++ [opts1.length - 1], stat.values ++ [value]⟩
      else stat
    ingestLoop rest opts1 stat1

/-- `_addOptionsFromSlottedElements()`: replaces `_options` wholesale with the
freshly built list and returns the stat of pre-selected children. -/
def _addOptionsFromSlottedElements (nodes : List SlottedNode) (s : SelectState) :
    SelectState × OptionListStat :=
  let res := ingestLoop nodes [] ⟨[], []⟩
  ({ s with options := res.1 }, res.2)

/-- `_onSlotChange()`: re-ingest; only when some new child is selected does the
selection state adopt the first selected index and the full selected set.  No
`vsc-change` is dispatched (the handler contains no dispatch call). -/
def _onSlotChange (nodes : List SlottedNode) (s : SelectState) :
    SelectState × List ChangeDetail :=
  let res := _addOptionsFromSlottedElements nodes s
  match res.2.selectedIndexes with
  | [] => (res.1, [])
  | i :: _ =>
    ({ res.1 with selectedIndex := (i : Int), selectedIndexes := res.2.selectedIndexes }, [])

/-- The valid values accepted by the `filter` property setter. -/
def validFilterValues : List String :=
  ["contains", "fuzzy", "startsWith", "startsWithPerTerm"]

/-- The cast `val as SearchMethod` for a string known to be valid. -/
def searchMethodOfString? (val : String) : Option SearchMethod :=
  if val = "contains" then some .contains
  else if val = "fuzzy" then some .fuzzy
  else if val = "startsWith" then some .startsWith
  else if val = "startsWithPerTerm" then some .startsWithPerTerm
  else none

/-- The `filter` property setter: valid values are stored as-is; anything else
falls back to `fuzzy` and emits a `console.warn` (the returned boolean). -/
def set_filter (val : String) (s : SelectState) : SelectState × Bool :=
  if validFilterValues.contains val then
    ({ s with filter := (searchMethodOfString? val).getD .fuzzy }, false)
  else
    ({ s with filter := .fuzzy }, true)

/-- Feed a sequence of keydown events through `_onComponentKeyDown`,
accumulating dispatched events; `none` as soon as a handler throws. -/
def runKeys : List String → SelectState → Option (SelectState × List ChangeDetail)
  | [], s => some (s, [])
  | k :: ks, s =>
    match _onComponentKeyDown k s with
    | none => none
    | some r => (runKeys ks r.state).map (fun p => (p.1, r.events ++ p.2))

/-- `_onOptionMouseOver(ev)`: hovering an option element sets the active index
to the index stored on the element. -/
def _onOptionMouseOver (idx : Int) (s : SelectState) : SelectState :=
  { s with activeIndex := idx }

/-- The A/B/C option list of the single-select scenario, as produced by the
`options` property setter (indexes assigned in order). -/
def abcOptions : List InternalOption :=
  [⟨"A", "a", "", false, 0⟩, ⟨"B", "b", "", false, 1⟩, ⟨"C", "c", "", false, 2⟩]

/-- A single-select widget with the dropdown open (as left by a face click). -/
def openSingle : SelectState :=
  { initialState abcOptions false with
    showDropdown := true
    ariaExpanded := "true"
    listenerAttached := true }

/-- A multi-select widget with the dropdown open. -/
def openMulti : SelectState :=
  { initialState abcOptions true with
    showDropdown := true
    ariaExpanded := "true"
    listenerAttached := true }

/-! ## Helper lemmas: exact output of each handler, by mode and visibility -/

theorem toggleDropdown_close (s : SelectState) :
    _toggleDropdown false s =
      { s with showDropdown := false, ariaExpanded := "false", listenerAttached := false } := by
  simp [_toggleDropdown]

theorem toggleDropdown_open_single (s : SelectState) (hm : s.multiple = false) :
    _toggleDropdown true s =
      { s with
        showDropdown := true
        ariaExpanded := "true"
        activeIndex := s.selectedIndex
        listenerAttached := true } := by
  simp [_toggleDropdown, hm]

theorem toggleDropdown_open_multi (s : SelectState) (hm : s.multiple = true) :
    _toggleDropdown true s =
      { s with
        showDropdown := true
        ariaExpanded := "true"
        listenerAttached := true } := by
  simp [_toggleDropdown, hm]

theorem enterKeyDown_open_single (s : SelectState)
    (hd : s.showDropdown = false) (hm : s.multiple = false) :
    _onEnterKeyDown s =
      some ({ s with
        showDropdown := true
        ariaExpanded := "true"
        activeIndex := s.selectedIndex
        listenerAttached := true }, []) := by
  simp [_onEnterKeyDown, toggleDropdown_open_single s hm, hd, hm]

theorem enterKeyDown_open_multi (s : SelectState)
    (hd : s.showDropdown = false) (hm : s.multiple = true) :
    _onEnterKeyDown s =
      some ({ s with
        showDropdown := true
        ariaExpanded := "true"
        activeIndex := 0
        listenerAttached := true }, []) := by
  simp [_onEnterKeyDown, toggleDropdown_open_multi s hm, hd, hm]

theorem enterKeyDown_close_multi (s : SelectState)
    (hd : s.showDropdown = true) (hm : s.multiple = true) :
    _onEnterKeyDown s =
      some ({ s with
        showDropdown := false
        ariaExpanded := "false"
        listenerAttached := false }, []) := by
  simp [_onEnterKeyDown, toggleDropdown_close s, hd, hm]

theorem enterKeyDown_close_single_same (s : SelectState)
    (hd : s.showDropdown = true) (hm : s.multiple = false)
    (heq : s.selectedIndex = s.activeIndex) :
    _onEnterKeyDown s =
      some ({ s with
        showDropdown := false
        ariaExpanded := "false"
        listenerAttached := false }, []) := by
  simp [_onEnterKeyDown, toggleDropdown_close s, hd, hm, heq]

theorem enterKeyDown_close_single_commit (s : SelectState) (opt : InternalOption)
    (hd : s.showDropdown = true) (hm : s.multiple = false)
    (hne : s.selectedIndex ≠ s.activeIndex)
    (hopt : getI? s.options s.activeIndex = some opt) :
    _onEnterKeyDown s =
      some ({ s with
        showDropdown := false
        ariaExpanded := "false"
        listenerAttached := false
        selectedIndex := s.activeIndex
        value := opt.value },
       [ChangeDetail.single s.activeIndex opt.value]) := by
  simp [_onEnterKeyDown, toggleDropdown_close s, hd, hm, hne, hopt, _dispatchChangeEvent]

theorem spaceKeyDown_closed (s : SelectState) (hd : s.showDropdown = false) :
    _onSpaceKeyDown s = some (_toggleDropdown true s) := by
  simp [_onSpaceKeyDown, hd]

theorem spaceKeyDown_open_single (s : SelectState)
    (hd : s.showDropdown = true) (hm : s.multiple = false) :
    _onSpaceKeyDown s = some s := by
  simp [_onSpaceKeyDown, hd, hm]

theorem spaceKeyDown_open_multi_inactive (s : SelectState)
    (hd : s.showDropdown = true) (hm : s.multiple = true)
    (ha : ¬s.activeIndex > -1) :
    _onSpaceKeyDown s = some s := by
  simp [_onSpaceKeyDown, hd, hm, ha]

theorem spaceKeyDown_open_multi_toggle (s : SelectState) (opt : InternalOption)
    (hd : s.showDropdown = true) (hm : s.multiple = true)
    (ha : s.activeIndex > -1)
    (hopt : getI? s.options s.activeIndex = some opt) :
    _onSpaceKeyDown s =
      some { s with
        options := s.options.set s.activeIndex.toNat { opt with selected := !opt.selected }
        selectedIndexes :=
          ((s.options.set s.activeIndex.toNat { opt with selected := !opt.selected }).filter
            (·.selected)).map (·.index) } := by
  simp [_onSpaceKeyDown, hd, hm, ha, hopt]

theorem keydown_enter (s : SelectState) :
    _onComponentKeyDown "Enter" s =
      (_onEnterKeyDown s).map (fun p => ⟨p.1, p.2, false, false⟩) := by
  simp [_onComponentKeyDown]

theorem keydown_space (s : SelectState) :
    _onComponentKeyDown " " s =
      (_onSpaceKeyDown s).map (fun t => ⟨t, [], true, true⟩) := by
  simp [_onComponentKeyDown]

theorem keydown_escape (s : SelectState) :
    _onComponentKeyDown "Escape" s =
      some ⟨{ s with showDropdown := false }, [], true, true⟩ := by
  simp [_onComponentKeyDown]

theorem keydown_arrow_up (s : SelectState) :
    _onComponentKeyDown "ArrowUp" s = some ⟨_onArrowUpKeyDown s, [], true, true⟩ := by
  simp [_onComponentKeyDown]

theorem keydown_arrow_down (s : SelectState) :
    _onComponentKeyDown "ArrowDown" s = some ⟨_onArrowDownKeyDown s, [], true, true⟩ := by
  simp [_onComponentKeyDown]

/-! ## C8: the `filter` setter -/

/-- C8: assigning any string outside {contains, fuzzy, startsWith,
startsWithPerTerm} to the `filter` property does not throw: the effective
method becomes `fuzzy` and a warning is emitted; a valid value is stored
as-is with no warning. -/
theorem filter_setter_fallback (val : String) (s : SelectState) :
    (validFilterValues.contains val = false →
      set_filter val s = ({ s with filter := SearchMethod.fuzzy }, true)) ∧
    (∀ m, searchMethodOfString? val = some m →
      set_filter val s = ({ s with filter := m }, false)) := by
  constructor
  · intro h
    unfold set_filter
    rw [h]
    simp
  · intro m hm
    unfold searchMethodOfString? at hm
    split_ifs at hm <;> injection hm with hm <;> subst hm <;>
      subst_vars <;> simp [set_filter, validFilterValues, searchMethodOfString?]

theorem filter_setter_fallback_witness :
    validFilterValues.contains "bogus" = false ∧
    set_filter "bogus" (initialState [] false) =
      ({ initialState [] false with filter := SearchMethod.fuzzy }, true) :=
  ⟨by decide, (filter_setter_fallback "bogus" (initialState [] false)).1 (by decide)⟩

/-! ## C9: Space while open, single mode -/

/-- C9 counterexample: in single-select mode with the dropdown open, Space
does not close the dropdown — `_onSpaceKeyDown` falls through both branches
and the state is unchanged, so the dropdown stays open. -/
theorem space_single_open_stays_open :
    (_onComponentKeyDown " " openSingle).map (fun r => r.state.showDropdown) = some true := by
  decide

/-- C9 amended: in single-select mode, Space while the dropdown is open is a
no-op apart from stopping propagation: the state (dropdown included) is
unchanged and nothing is dispatched; Space only opens the dropdown when it is
closed. -/
theorem space_single_open_noop (s : SelectState)
    (hm : s.multiple = false) (ho : s.showDropdown = true) :
    _onComponentKeyDown " " s = some ⟨s, [], true, true⟩ ∧
    (∀ t : SelectState, t.showDropdown = false →
      _onComponentKeyDown " " t = some ⟨_toggleDropdown true t, [], true, true⟩) := by
  constructor
  · simp [_onComponentKeyDown, _onSpaceKeyDown, hm, ho]
  · intro t ht
    simp [_onComponentKeyDown, _onSpaceKeyDown, ht]

theorem space_single_open_noop_witness :
    openSingle.multiple = false ∧ openSingle.showDropdown = true ∧
    _onComponentKeyDown " " openSingle = some ⟨openSingle, [], true, true⟩ :=
  ⟨by decide, by decide,
    (space_single_open_noop openSingle (by decide) (by decide)).1⟩

/-! ## C4: stopPropagation / preventDefault -/

/-- For any keydown that returns (does not throw), the propagation flags equal
membership of the key in the hard-coded four-key list of
`_onComponentKeyDown`. -/
theorem keydown_flags (key : String) (s : SelectState) (r : KeyDownResult)
    (h : _onComponentKeyDown key s = some r) :
    r.stopPropagationCalled = ([" ", "ArrowUp", "ArrowDown", "Escape"].contains key) ∧
    r.preventDefaultCalled = ([" ", "ArrowUp", "ArrowDown", "Escape"].contains key) := by
  unfold _onComponentKeyDown at h
  split_ifs at h <;>
    first
      | (injection h with h; subst h; exact ⟨rfl, rfl⟩)
      | (simp only [Option.map_eq_some'] at h
         obtain ⟨p, -, rfl⟩ := h
         exact ⟨rfl, rfl⟩)

/-- C4 counterexample: pressing Enter never calls stopPropagation or
preventDefault — Enter is absent from the four-key guard list. -/
theorem enter_no_stop_propagation :
    (_onComponentKeyDown "Enter" (initialState abcOptions false)).map
      (fun r => (r.stopPropagationCalled, r.preventDefaultCalled)) = some (false, false) := by
  decide

/-- C4 amended: Space, ArrowUp, ArrowDown and Escape always stop propagation
and prevent default, regardless of state and of which transition fires;
Enter never does. -/
theorem keydown_propagation (key : String) (s : SelectState) (r : KeyDownResult)
    (h : _onComponentKeyDown key s = some r) :
    (key ∈ [" ", "ArrowUp", "ArrowDown", "Escape"] →
      r.stopPropagationCalled = true ∧ r.preventDefaultCalled = true) ∧
    (key = "Enter" →
      r.stopPropagationCalled = false ∧ r.preventDefaultCalled = false) := by
  obtain ⟨h1, h2⟩ := keydown_flags key s r h
  constructor
  · intro hk
    fin_cases hk <;> simp_all
  · intro hk
    subst hk
    simp_all

theorem keydown_propagation_witness :
    " " ∈ [" ", "ArrowUp", "ArrowDown", "Escape"] ∧
    _onComponentKeyDown " " openSingle = some ⟨openSingle, [], true, true⟩ ∧
    (⟨openSingle, [], true, true⟩ : KeyDownResult).stopPropagationCalled = true ∧
    (⟨openSingle, [], true, true⟩ : KeyDownResult).preventDefaultCalled = true :=
  ⟨by decide, by decide,
    (keydown_propagation " " openSingle ⟨openSingle, [], true, true⟩ (by decide)).1 (by decide)⟩

/-! ## C2: outside-click listener pairing -/

/-- C2 counterexample: open the dropdown with a face click, then close it with
Escape — the dropdown is closed but the outside-click listener is still
attached, because the Escape branch of `_onComponentKeyDown` sets
`_showDropdown` directly instead of going through `_toggleDropdown`. -/
theorem escape_leaks_listener :
    (_onComponentKeyDown "Escape" (_onFaceClick (initialState abcOptions false))).map
      (fun r => (r.state.showDropdown, r.state.listenerAttached)) = some (false, true) := by
  decide

/-- C2 amended: every open/close transition that goes through
`_toggleDropdown` — face click, Enter, Space, outside click — keeps the
listener attached exactly when the dropdown is shown, so such runs ending
closed leave no listener; but closing via Escape does not detach the
listener: it remains attached while the dropdown is closed. -/
theorem listener_pairing (s : SelectState) :
    ((_onFaceClick s).listenerAttached = (_onFaceClick s).showDropdown) ∧
    (∀ p : SelectState × List ChangeDetail, _onEnterKeyDown s = some p →
      p.1.listenerAttached = p.1.showDropdown) ∧
    (s.listenerAttached = s.showDropdown →
      ∀ s1, _onSpaceKeyDown s = some s1 → s1.listenerAttached = s1.showDropdown) ∧
    ((_onClickOutside false s).listenerAttached = false ∧
      (_onClickOutside false s).showDropdown = false) ∧
    (∀ r, _onComponentKeyDown "Escape" s = some r →
      r.state.showDropdown = false ∧ r.state.listenerAttached = s.listenerAttached) := by
  refine ⟨?_, ?_, ?_, ⟨?_, ?_⟩, ?_⟩
  · cases hm : s.multiple <;> cases hd : s.showDropdown <;>
      simp [_onFaceClick, hd, hm, toggleDropdown_close,
        toggleDropdown_open_single, toggleDropdown_open_multi]
  · intro p hp
    cases hm : s.multiple <;> cases hd : s.showDropdown
    · rw [enterKeyDown_open_single s hd hm] at hp
      injection hp with hp
      subst hp
      rfl
    · rcases Decidable.em (s.selectedIndex = s.activeIndex) with heq | hne
      · rw [enterKeyDown_close_single_same s hd hm heq] at hp
        injection hp with hp
        subst hp
        rfl
      · cases hopt : getI? s.options s.activeIndex with
        | none =>
          simp [_onEnterKeyDown, toggleDropdown_close, hd, hm, hne, hopt] at hp
        | some opt =>
          rw [enterKeyDown_close_single_commit s opt hd hm hne hopt] at hp
          injection hp with hp
          subst hp
          rfl
    · rw [enterKeyDown_open_multi s hd hm] at hp
      injection hp with hp
      subst hp
      rfl
    · rw [enterKeyDown_close_multi s hd hm] at hp
      injection hp with hp
      subst hp
      rfl
  · intro hls s1 h1
    cases hd : s.showDropdown
    · rw [spaceKeyDown_closed s hd] at h1
      injection h1 with h1
      subst h1
      cases hm : s.multiple <;>
        simp [hm, toggleDropdown_open_single, toggleDropdown_open_multi]
    · cases hm : s.multiple
      · rw [spaceKeyDown_open_single s hd hm] at h1
        injection h1 with h1
        subst h1
        rw [hls, hd]
      · rcases Decidable.em (s.activeIndex > -1) with ha | ha
        · cases hopt : getI? s.options s.activeIndex with
          | none =>
            simp [_onSpaceKeyDown, hd, hm, ha, hopt] at h1
          | some opt =>
            rw [spaceKeyDown_open_multi_toggle s opt hd hm ha hopt] at h1
            injection h1 with h1
            subst h1
            rw [hls, hd]
        · rw [spaceKeyDown_open_multi_inactive s hd hm ha] at h1
          injection h1 with h1
          subst h1
          rw [hls, hd]
  · rw [_onClickOutside]
    simp [toggleDropdown_close]
  · rw [_onClickOutside]
    simp [toggleDropdown_close]
  · intro r hr
    rw [keydown_escape s] at hr
    injection hr with hr
    subst hr
    exact ⟨rfl, rfl⟩

theorem listener_pairing_witness :
    openSingle.listenerAttached = openSingle.showDropdown ∧
    (_onFaceClick openSingle).listenerAttached = (_onFaceClick openSingle).showDropdown :=
  ⟨by decide, (listener_pairing openSingle).1⟩

/-! ## C5: active index on opening -/

/-- C5 counterexample: opening the dropdown with Enter in multi-select mode
sets the active index to 0, not -1. -/
theorem multi_enter_open_active_zero :
    (_onComponentKeyDown "Enter" (initialState abcOptions true)).map
      (fun r => r.state.activeIndex) = some 0 := by
  decide

/-- C5 amended: on a Closed→Open transition, single-select mode always
initializes the active index to the current selected index (face click,
Enter and Space alike); in multi-select mode only a face click resets it to
-1, while Enter sets it to 0 and Space leaves it unchanged. -/
theorem open_initializes_active_index (s : SelectState) (hc : s.showDropdown = false) :
    (s.multiple = false →
      (_onFaceClick s).activeIndex = s.selectedIndex ∧
      (∀ r, _onComponentKeyDown "Enter" s = some r → r.state.activeIndex = s.selectedIndex) ∧
      (∀ r, _onComponentKeyDown " " s = some r → r.state.activeIndex = s.selectedIndex)) ∧
    (s.multiple = true →
      (_onFaceClick s).activeIndex = -1 ∧
      (∀ r, _onComponentKeyDown "Enter" s = some r → r.state.activeIndex = 0) ∧
      (∀ r, _onComponentKeyDown " " s = some r → r.state.activeIndex = s.activeIndex)) := by
  constructor
  · intro hm
    refine ⟨?_, ?_, ?_⟩
    · simp [_onFaceClick, hc, hm, toggleDropdown_open_single s hm]
    · intro r hr
      rw [keydown_enter s, enterKeyDown_open_single s hc hm] at hr
      injection hr with hr
      subst hr
      rfl
    · intro r hr
      rw [keydown_space s, spaceKeyDown_closed s hc] at hr
      injection hr with hr
      subst hr
      simp [toggleDropdown_open_single s hm]
  · intro hm
    refine ⟨?_, ?_, ?_⟩
    · simp [_onFaceClick, hc, hm, toggleDropdown_open_multi s hm]
    · intro r hr
      rw [keydown_enter s, enterKeyDown_open_multi s hc hm] at hr
      injection hr with hr
      subst hr
      rfl
    · intro r hr
      rw [keydown_space s, spaceKeyDown_closed s hc] at hr
      injection hr with hr
      subst hr
      simp [toggleDropdown_open_multi s hm]

theorem open_initializes_active_index_witness :
    (initialState abcOptions false).showDropdown = false ∧
    (initialState abcOptions false).multiple = false ∧
    (_onFaceClick (initialState abcOptions false)).activeIndex =
      (initialState abcOptions false).selectedIndex :=
  ⟨by decide, by decide,
    ((open_initializes_active_index (initialState abcOptions false) (by decide)).1
      (by decide)).1⟩

/-! ## C3: selection validity after re-ingestion -/

/-- A widget whose third option (index 2) is the committed selection. -/
def staleSelState : SelectState :=
  { initialState abcOptions false with selectedIndex := 2, selectedIndexes := [2] }

/-- C3 counterexample: with index 2 selected, re-ingesting a slotted child
list containing only two (unselected) options leaves `selectedIndex` at 2
while only indexes 0 and 1 exist — the stale index is not cleared. -/
theorem reingest_keeps_stale_selection :
    (_onSlotChange [SlottedNode.optionEl "A" none "" false,
        SlottedNode.optionEl "B" none "" false] staleSelState).1.selectedIndex = 2 ∧
    (_onSlotChange [SlottedNode.optionEl "A" none "" false,
        SlottedNode.optionEl "B" none "" false] staleSelState).1.options.length = 2 := by
  decide

/-- C3 amended: re-ingestion replaces the option list wholesale and never
emits a change notification; Selection State is updated only when some newly
slotted child is selected (adopting the first selected index and the full
selected set) — otherwise it is left exactly as it was, so an index
referencing a removed option persists rather than being cleared. -/
theorem onSlotChange_no_selected (nodes : List SlottedNode) (s : SelectState)
    (h : (_addOptionsFromSlottedElements nodes s).2.selectedIndexes = []) :
    _onSlotChange nodes s = ((_addOptionsFromSlottedElements nodes s).1, []) := by
  unfold _onSlotChange
  dsimp only
  split
  · rfl
  · rename_i i rest hcons
    rw [h] at hcons
    cases hcons

theorem onSlotChange_first_selected (nodes : List SlottedNode) (s : SelectState)
    (i : Nat) (rest : List Nat)
    (h : (_addOptionsFromSlottedElements nodes s).2.selectedIndexes = i :: rest) :
    _onSlotChange nodes s =
      ({ (_addOptionsFromSlottedElements nodes s).1 with
        selectedIndex := (i : Int)
        selectedIndexes := i :: rest }, []) := by
  unfold _onSlotChange
  dsimp only
  split
  · rename_i hnil
    rw [h] at hnil
    cases hnil
  · rename_i j jrest hcons
    rw [h] at hcons
    injection hcons with h1 h2
    subst h1
    subst h2
    rw [h]

theorem slotchange_selection_update (nodes : List SlottedNode) (s : SelectState) :
    (_onSlotChange nodes s).2 = [] ∧
    (_onSlotChange nodes s).1.options = (_addOptionsFromSlottedElements nodes s).1.options ∧
    ((_addOptionsFromSlottedElements nodes s).2.selectedIndexes = [] →
      (_onSlotChange nodes s).1.selectedIndex = s.selectedIndex ∧
      (_onSlotChange nodes s).1.selectedIndexes = s.selectedIndexes) ∧
    (∀ i rest, (_addOptionsFromSlottedElements nodes s).2.selectedIndexes = i :: rest →
      (_onSlotChange nodes s).1.selectedIndex = (i : Int) ∧
      (_onSlotChange nodes s).1.selectedIndexes = i :: rest) := by
  cases h : (_addOptionsFromSlottedElements nodes s).2.selectedIndexes with
  | nil =>
    rw [onSlotChange_no_selected nodes s h]
    refine ⟨rfl, rfl, fun _ => ⟨rfl, rfl⟩, ?_⟩
    intro i rest hir
    cases hir
  | cons i rest =>
    rw [onSlotChange_first_selected nodes s i rest h]
    refine ⟨rfl, rfl, fun hnil => ?_, ?_⟩
    · cases hnil
    · intro j jrest hj
      injection hj with h1 h2
      subst h1
      subst h2
      exact ⟨rfl, rfl⟩

theorem slotchange_selection_update_witness :
    (_addOptionsFromSlottedElements [SlottedNode.optionEl "A" none "" false,
        SlottedNode.optionEl "B" none "" false] staleSelState).2.selectedIndexes = [] ∧
    (_onSlotChange [SlottedNode.optionEl "A" none "" false,
        SlottedNode.optionEl "B" none "" false] staleSelState).1.selectedIndex =
      staleSelState.selectedIndex :=
  ⟨by decide,
    ((slotchange_selection_update [SlottedNode.optionEl "A" none "" false,
        SlottedNode.optionEl "B" none "" false] staleSelState).2.2.1 (by decide)).1⟩

/-! ## C1: Enter commit in single-select mode -/

/-- C1: in single-select mode with the dropdown open, Enter closes the
dropdown; when the active index differs from the selected index it commits —
the selected index becomes the active index, the stored value becomes the
value of the option record at that index, and one `vsc-change` with payload
`{selectedIndex, value}` is dispatched; when they are equal, nothing is
dispatched.  The concrete scenario: A/B/C options, no prior selection, open
then ArrowDown twice then Enter emits `{selectedIndex: 1, value: "b"}` and
the dropdown ends closed. -/
theorem enter_commit_single (s : SelectState) (opt : InternalOption)
    (hm : s.multiple = false) (ho : s.showDropdown = true) :
    (s.selectedIndex = s.activeIndex →
      _onComponentKeyDown "Enter" s =
        some ⟨{ s with
          showDropdown := false
          ariaExpanded := "false"
          listenerAttached := false }, [], false, false⟩) ∧
    (s.selectedIndex ≠ s.activeIndex → getI? s.options s.activeIndex = some opt →
      _onComponentKeyDown "Enter" s =
        some ⟨{ s with
          showDropdown := false
          ariaExpanded := "false"
          listenerAttached := false
          selectedIndex := s.activeIndex
          value := opt.value }, [ChangeDetail.single s.activeIndex opt.value], false, false⟩) ∧
    (runKeys ["Enter", "ArrowDown", "ArrowDown", "Enter"] (initialState abcOptions false)).map
        (fun p => (p.1.showDropdown, p.2)) =
      some (false, [ChangeDetail.single 1 "b"]) := by
  refine ⟨?_, ?_, by decide⟩
  · intro heq
    rw [keydown_enter s, enterKeyDown_close_single_same s ho hm heq]
    rfl
  · intro hne hopt
    rw [keydown_enter s, enterKeyDown_close_single_commit s opt ho hm hne hopt]
    rfl

/-- The B record of `abcOptions`. -/
def bOption : InternalOption := ⟨"B", "b", "", false, 1⟩

/-- The open single-select widget just before the scenario commit. -/
def commitReadyState : SelectState := { openSingle with activeIndex := 1 }

theorem enter_commit_single_witness :
    commitReadyState.multiple = false ∧ commitReadyState.showDropdown = true ∧
    commitReadyState.selectedIndex ≠ commitReadyState.activeIndex ∧
    getI? commitReadyState.options commitReadyState.activeIndex = some bOption ∧
    _onComponentKeyDown "Enter" commitReadyState =
      some ⟨{ commitReadyState with
        showDropdown := false
        ariaExpanded := "false"
        listenerAttached := false
        selectedIndex := commitReadyState.activeIndex
        value := bOption.value },
       [ChangeDetail.single commitReadyState.activeIndex bOption.value], false, false⟩ :=
  ⟨by decide, by decide, by decide, by decide,
    (enter_commit_single commitReadyState bOption (by decide) (by decide)).2.1
      (by decide) (by decide)⟩

/-! ## C6: change events are dispatched only on a committed selection change -/

/-- The selection-related state (committed selection, option list, stored
values) of `b` agrees with that of `a`. -/
abbrev selectionUnchanged (a b : SelectState) : Prop :=
  b.selectedIndex = a.selectedIndex ∧ b.selectedIndexes = a.selectedIndexes ∧
  b.options = a.options ∧ b.value = a.value ∧ b.values = a.values

theorem enterKeyDown_close_single_none (s : SelectState)
    (hd : s.showDropdown = true) (hm : s.multiple = false)
    (hne : s.selectedIndex ≠ s.activeIndex)
    (hopt : getI? s.options s.activeIndex = none) :
    _onEnterKeyDown s = none := by
  simp [_onEnterKeyDown, toggleDropdown_close, hd, hm, hne, hopt]

theorem keydown_other (key : String) (s : SelectState)
    (h1 : key ≠ "Enter") (h2 : key ≠ " ") (h3 : key ≠ "Escape")
    (h4 : key ≠ "ArrowUp") (h5 : key ≠ "ArrowDown") :
    _onComponentKeyDown key s =
      some ⟨s, [], [" ", "ArrowUp", "ArrowDown", "Escape"].contains key,
        [" ", "ArrowUp", "ArrowDown", "Escape"].contains key⟩ := by
  simp [_onComponentKeyDown, h1, h2, h3, h4, h5]

/-- C6: a `vsc-change` is dispatched only by the single-select Enter commit;
arrow movement and mouse hover never dispatch, Escape and an outside click
close without commit or dispatch, and Enter while open in multi-select mode
closes without touching the selection state and without dispatching. -/
theorem change_event_only_on_commit (s : SelectState) :
    (∀ r, _onComponentKeyDown "ArrowUp" s = some r → r.events = []) ∧
    (∀ r, _onComponentKeyDown "ArrowDown" s = some r → r.events = []) ∧
    (∀ idx, selectionUnchanged s (_onOptionMouseOver idx s)) ∧
    (∀ r, _onComponentKeyDown "Escape" s = some r →
      r.events = [] ∧ selectionUnchanged s r.state ∧ r.state.showDropdown = false) ∧
    (∀ r, _onComponentKeyDown " " s = some r → r.events = []) ∧
    (s.multiple = true → s.showDropdown = true →
      ∀ r, _onComponentKeyDown "Enter" s = some r →
        r.events = [] ∧ r.state.showDropdown = false ∧ selectionUnchanged s r.state) ∧
    (selectionUnchanged s (_onClickOutside false s) ∧
      (_onClickOutside false s).showDropdown = false) ∧
    (∀ key r, _onComponentKeyDown key s = some r → r.events ≠ [] →
      s.multiple = false ∧ s.showDropdown = true ∧ key = "Enter" ∧
      s.selectedIndex ≠ s.activeIndex ∧ r.state.selectedIndex = s.activeIndex ∧
      r.events = [ChangeDetail.single s.activeIndex r.state.value]) := by
  refine ⟨?_, ?_, ?_, ?_, ?_, ?_, ?_, ?_⟩
  · intro r hr
    rw [keydown_arrow_up s] at hr
    injection hr with hr
    subst hr
    rfl
  · intro r hr
    rw [keydown_arrow_down s] at hr
    injection hr with hr
    subst hr
    rfl
  · intro idx
    exact ⟨rfl, rfl, rfl, rfl, rfl⟩
  · intro r hr
    rw [keydown_escape s] at hr
    injection hr with hr
    subst hr
    exact ⟨rfl, ⟨rfl, rfl, rfl, rfl, rfl⟩, rfl⟩
  · intro r hr
    rw [keydown_space s] at hr
    cases hsp : _onSpaceKeyDown s with
    | none => rw [hsp] at hr; cases hr
    | some t =>
      rw [hsp, Option.map_some'] at hr
      injection hr with hr
      subst hr
      rfl
  · intro hm hd r hr
    rw [keydown_enter s, enterKeyDown_close_multi s hd hm, Option.map_some'] at hr
    injection hr with hr
    subst hr
    exact ⟨rfl, rfl, rfl, rfl, rfl, rfl, rfl⟩
  · constructor
    · rw [_onClickOutside]
      simp only [Bool.not_false, if_pos, toggleDropdown_close]
      exact ⟨rfl, rfl, rfl, rfl, rfl⟩
    · simp [_onClickOutside, toggleDropdown_close]
  · intro key r hr hne
    rcases Decidable.em (key = "Enter") with hk | hk
    · subst hk
      rw [keydown_enter s] at hr
      cases hm : s.multiple
      · cases hd : s.showDropdown
        · rw [enterKeyDown_open_single s hd hm, Option.map_some'] at hr
          injection hr with hr
          subst hr
          exact absurd rfl hne
        · rcases Decidable.em (s.selectedIndex = s.activeIndex) with heq | hneq
          · rw [enterKeyDown_close_single_same s hd hm heq, Option.map_some'] at hr
            injection hr with hr
            subst hr
            exact absurd rfl hne
          · cases hopt : getI? s.options s.activeIndex with
            | none =>
              rw [enterKeyDown_close_single_none s hd hm hneq hopt] at hr
              cases hr
            | some opt =>
              rw [enterKeyDown_close_single_commit s opt hd hm hneq hopt,
                Option.map_some'] at hr
              injection hr with hr
              subst hr
              exact ⟨rfl, rfl, rfl, hneq, rfl, rfl⟩
      · cases hd : s.showDropdown
        · rw [enterKeyDown_open_multi s hd hm, Option.map_some'] at hr
          injection hr with hr
          subst hr
          exact absurd rfl hne
        · rw [enterKeyDown_close_multi s hd hm, Option.map_some'] at hr
          injection hr with hr
          subst hr
          exact absurd rfl hne
    · rcases Decidable.em (key = " ") with hk2 | hk2
      · subst hk2
        rw [keydown_space s] at hr
        cases hsp : _onSpaceKeyDown s with
        | none => rw [hsp] at hr; cases hr
        | some t =>
          rw [hsp, Option.map_some'] at hr
          injection hr with hr
          subst hr
          exact absurd rfl hne
      · rcases Decidable.em (key = "Escape") with hk3 | hk3
        · subst hk3
          rw [keydown_escape s] at hr
          injection hr with hr
          subst hr
          exact absurd rfl hne
        · rcases Decidable.em (key = "ArrowUp") with hk4 | hk4
          · subst hk4
            rw [keydown_arrow_up s] at hr
            injection hr with hr
            subst hr
            exact absurd rfl hne
          · rcases Decidable.em (key = "ArrowDown") with hk5 | hk5
            · subst hk5
              rw [keydown_arrow_down s] at hr
              injection hr with hr
              subst hr
              exact absurd rfl hne
            · rw [keydown_other key s hk hk2 hk3 hk4 hk5] at hr
              injection hr with hr
              subst hr
              exact absurd rfl hne

/-- The state left by the Enter-close in multi mode from `openMulti`. -/
def multiCloseResult : KeyDownResult :=
  ⟨{ openMulti with
    showDropdown := false
    ariaExpanded := "false"
    listenerAttached := false }, [], false, false⟩

theorem change_event_only_on_commit_witness :
    openMulti.multiple = true ∧ openMulti.showDropdown = true ∧
    _onComponentKeyDown "Enter" openMulti = some multiCloseResult ∧
    (multiCloseResult.events = [] ∧ multiCloseResult.state.showDropdown = false ∧
      selectionUnchanged openMulti multiCloseResult.state) :=
  ⟨by decide, by decide, by decide,
    (change_event_only_on_commit openMulti).2.2.2.2.2.1 (by decide) (by decide)
      multiCloseResult (by decide)⟩

/-! ## C7: arrow-key clamping -/

/-- `ArrowDown` pressed `n` times in a row. -/
def iterateArrowDown : Nat → SelectState → SelectState
  | 0, s => s
  | n + 1, s => iterateArrowDown n (_onArrowDownKeyDown s)

theorem arrowDown_options (s : SelectState) :
    (_onArrowDownKeyDown s).options = s.options := by
  unfold _onArrowDownKeyDown
  split
  · split <;> rfl
  · rfl

theorem arrowDown_active_le (s : SelectState)
    (h : s.activeIndex ≤ (s.options.length : Int) - 1) :
    (_onArrowDownKeyDown s).activeIndex ≤ ((_onArrowDownKeyDown s).options.length : Int) - 1 := by
  rw [arrowDown_options s]
  unfold _onArrowDownKeyDown
  split
  · split
    · exact h
    · rename_i hlt
      simp only []
      omega
  · exact h

theorem iterateArrowDown_active_le (n : Nat) (s : SelectState)
    (h : s.activeIndex ≤ (s.options.length : Int) - 1) :
    (iterateArrowDown n s).activeIndex ≤ ((iterateArrowDown n s).options.length : Int) - 1 := by
  induction n generalizing s with
  | zero => exact h
  | succ n ih => exact ih _ (arrowDown_active_le s h)

theorem iterateArrowDown_options (n : Nat) (s : SelectState) :
    (iterateArrowDown n s).options = s.options := by
  induction n generalizing s with
  | zero => rfl
  | succ n ih => rw [iterateArrowDown, ih, arrowDown_options]

/-- C7: while the dropdown is open over `n` options, ArrowDown increments the
active index by 1 exactly when it is strictly below `n - 1` and ArrowUp
decrements it by 1 exactly when it is strictly above 0, with no wraparound;
starting at -1, `n` ArrowDown presses never push the active index past
`n - 1`. -/
theorem arrow_keys_clamped (s : SelectState) (ho : s.showDropdown = true) :
    ((s.activeIndex < (s.options.length : Int) - 1 →
        (_onArrowDownKeyDown s).activeIndex = s.activeIndex + 1) ∧
      ((s.options.length : Int) - 1 ≤ s.activeIndex →
        (_onArrowDownKeyDown s).activeIndex = s.activeIndex)) ∧
    ((0 < s.activeIndex → (_onArrowUpKeyDown s).activeIndex = s.activeIndex - 1) ∧
      (s.activeIndex ≤ 0 → (_onArrowUpKeyDown s).activeIndex = s.activeIndex)) ∧
    (s.activeIndex = -1 →
      (iterateArrowDown s.options.length s).activeIndex ≤ (s.options.length : Int) - 1) := by
  refine ⟨⟨?_, ?_⟩, ⟨?_, ?_⟩, ?_⟩
  · intro hlt
    unfold _onArrowDownKeyDown
    rw [ho]
    simp only [if_true]
    rw [if_neg (by omega)]
  · intro hge
    unfold _onArrowDownKeyDown
    rw [ho]
    simp only [if_true]
    rw [if_pos (by omega)]
  · intro hgt
    unfold _onArrowUpKeyDown
    rw [ho]
    simp only [if_true]
    rw [if_neg (by omega)]
  · intro hle
    unfold _onArrowUpKeyDown
    rw [ho]
    simp only [if_true]
    rw [if_pos (by omega)]
  · intro ha
    have hstart : s.activeIndex ≤ (s.options.length : Int) - 1 := by
      rw [ha]
      have : (0 : Int) ≤ (s.options.length : Int) := Int.natCast_nonneg _
      omega
    have := iterateArrowDown_active_le s.options.length s hstart
    rwa [iterateArrowDown_options] at this

theorem arrow_keys_clamped_witness :
    openSingle.showDropdown = true ∧
    (openSingle.activeIndex = -1 ∧
      (iterateArrowDown openSingle.options.length openSingle).activeIndex ≤
        (openSingle.options.length : Int) - 1) :=
  ⟨by decide,
    by decide,
    (arrow_keys_clamped openSingle (by decide)).2.2 (by decide)⟩

/-! ## C10: multi-select Space toggles exactly the active option -/

/-- The option list indexes equal positions — the invariant established by
both the `options` property setter (which maps with the position) and slot
ingestion (which assigns `currentIndex` in order). -/
abbrev wellIndexed (opts : List InternalOption) : Prop :=
  ∀ k, k < opts.length → (opts.getD k default).index = k

theorem map_index_eq_range (opts : List InternalOption) (hw : wellIndexed opts) :
    opts.map (·.index) = List.range opts.length := by
  apply List.ext_getElem
  · simp
  · intro i h1 h2
    simp only [List.getElem_map, List.getElem_range]
    have h3 : i < opts.length := by simpa using h1
    have h4 := hw i h3
    rwa [List.getD_eq_getElem opts default h3] at h4

theorem selected_indexes_sorted (opts : List InternalOption) (hw : wellIndexed opts) :
    List.Pairwise (· < ·) ((opts.filter (·.selected)).map (·.index)) := by
  have hsub : List.Sublist ((opts.filter (·.selected)).map (·.index)) (opts.map (·.index)) :=
    (List.filter_sublist opts).map _
  rw [map_index_eq_range opts hw] at hsub
  exact (List.pairwise_lt_range _).sublist hsub

theorem mem_selected_indexes (opts : List InternalOption) (k : Nat) :
    k ∈ (opts.filter (·.selected)).map (·.index) ↔
      ∃ o, o ∈ opts ∧ o.index = k ∧ o.selected = true := by
  simp only [List.mem_map, List.mem_filter]
  constructor
  · rintro ⟨o, ⟨ho, hs⟩, hi⟩
    exact ⟨o, ho, hi, hs⟩
  · rintro ⟨o, ho, hi, hs⟩
    exact ⟨o, ⟨ho, hs⟩, hi⟩

theorem wellIndexed_set (opts : List InternalOption) (hw : wellIndexed opts)
    (i : Nat) (o : InternalOption) (hio : o.index = i) :
    wellIndexed (opts.set i o) := by
  intro k hk
  rw [List.length_set] at hk
  by_cases hki : k = i
  · subst hki
    rw [List.getD_eq_getElem?_getD, List.getElem?_set_self', List.getElem?_eq_getElem hk]
    simpa using hio
  · rw [List.getD_eq_getElem?_getD, List.getElem?_set_ne (fun h => hki (h.symm)),
      ← List.getD_eq_getElem?_getD]
    exact hw k hk

/-- C10: with the dropdown open in multi-select mode and active index
`i ≥ 0` in range, Space flips only the `selected` flag of the record at
position `i` — every other record, the labels/values/descriptions/indexes,
the active index, the visibility, and the committed single-select state are
unchanged — and afterwards `selectedIndexes` is exactly the strictly
ascending list of indexes of the records whose `selected` flag is true;
with active index -1 the state is unchanged. -/
theorem space_toggles_multi (s : SelectState) (i : Nat)
    (hm : s.multiple = true) (ho : s.showDropdown = true)
    (hw : wellIndexed s.options) :
    (s.activeIndex = (i : Int) → i < s.options.length →
      ∃ r, _onComponentKeyDown " " s = some r ∧
        r.events = [] ∧
        r.state.options.length = s.options.length ∧
        (∀ j, j < s.options.length → j ≠ i →
          r.state.options.getD j default = s.options.getD j default) ∧
        r.state.options.getD i default =
          { s.options.getD i default with
            selected := !(s.options.getD i default).selected } ∧
        r.state.activeIndex = s.activeIndex ∧
        r.state.showDropdown = true ∧
        r.state.selectedIndex = s.selectedIndex ∧
        r.state.value = s.value ∧
        r.state.values = s.values ∧
        List.Pairwise (· < ·) r.state.selectedIndexes ∧
        (∀ k, k ∈ r.state.selectedIndexes ↔
          ∃ o, o ∈ r.state.options ∧ o.index = k ∧ o.selected = true)) ∧
    (s.activeIndex = -1 → _onComponentKeyDown " " s = some ⟨s, [], true, true⟩) := by
  constructor
  · intro ha hi
    have h0 : (0 : Int) ≤ s.activeIndex := by
      rw [ha]
      exact Int.natCast_nonneg i
    have htoNat : s.activeIndex.toNat = i := by
      rw [ha]
      exact Int.toNat_natCast i
    have hopt : getI? s.options s.activeIndex = some (s.options.getD i default) := by
      rw [getI?, if_pos h0, htoNat, List.getElem?_eq_getElem hi,
        List.getD_eq_getElem s.options default hi]
    have hgt : s.activeIndex > -1 := by omega
    have hsp := spaceKeyDown_open_multi_toggle s (s.options.getD i default) ho hm hgt hopt
    rw [htoNat] at hsp
    have hio : ({ s.options.getD i default with
        selected := !(s.options.getD i default).selected } : InternalOption).index = i := by
      simpa using hw i hi
    have hw2 : wellIndexed (s.options.set i
        { s.options.getD i default with
          selected := !(s.options.getD i default).selected }) :=
      wellIndexed_set s.options hw i _ hio
    refine ⟨_, by rw [keydown_space s, hsp, Option.map_some'], rfl,
      List.length_set _ _ _, ?_, ?_, rfl, ho, rfl, rfl, rfl,
      selected_indexes_sorted _ hw2, fun k => mem_selected_indexes _ k⟩
    · intro j hj hji
      show (s.options.set i _).getD j default = s.options.getD j default
      rw [List.getD_eq_getElem?_getD, List.getElem?_set_ne (fun h => hji (h.symm)),
        ← List.getD_eq_getElem?_getD]
    · show (s.options.set i _).getD i default = _
      rw [List.getD_eq_getElem?_getD, List.getElem?_set_self',
        List.getElem?_eq_getElem hi]
      simp
  · intro ha
    rw [keydown_space s, spaceKeyDown_open_multi_inactive s ho hm (by rw [ha]; decide),
      Option.map_some']

/-- The open multi-select widget with the B option highlighted. -/
def multiActiveB : SelectState := { openMulti with activeIndex := 1 }

theorem space_toggles_multi_witness :
    multiActiveB.multiple = true ∧ multiActiveB.showDropdown = true ∧
    multiActiveB.activeIndex = ((1 : Nat) : Int) ∧ 1 < multiActiveB.options.length ∧
    (∃ r, _onComponentKeyDown " " multiActiveB = some r ∧
        r.events = [] ∧
        r.state.options.length = multiActiveB.options.length ∧
        (∀ j, j < multiActiveB.options.length → j ≠ 1 →
          r.state.options.getD j default = multiActiveB.options.getD j default) ∧
        r.state.options.getD 1 default =
          { multiActiveB.options.getD 1 default with
            selected := !(multiActiveB.options.getD 1 default).selected } ∧
        r.state.activeIndex = multiActiveB.activeIndex ∧
        r.state.showDropdown = true ∧
        r.state.selectedIndex = multiActiveB.selectedIndex ∧
        r.state.value = multiActiveB.value ∧
        r.state.values = multiActiveB.values ∧
        List.Pairwise (· < ·) r.state.selectedIndexes ∧
        (∀ k, k ∈ r.state.selectedIndexes ↔
          ∃ o, o ∈ r.state.options ∧ o.index = k ∧ o.selected = true)) :=
  ⟨by decide, by decide, by decide, by decide,
    (space_toggles_multi multiActiveB 1 (by decide) (by decide) (by decide)).1
      (by decide) (by decide)⟩

end VscodeSelect
